import Mathlib

/-!
Shallow embedding of the core logic of `src/app.py` (the extrusion stakeholder
map dashboard): the status normalizer, the load-time record-store pipeline,
the two independently coded filter computations (`update_map` and
`update_visible_table`), the coordinate `groupby` aggregation into map
markers, the legend, and the viewport-bounds restriction of the table.

Modelling conventions:
* pandas cells that may be missing (`NaN`) are `Option String`; pandas
  `astype(str)` renders a missing cell as the literal string "nan",
  embedded by `strField`.
* Python's substring test `needle in hay` is `pyIn`; pandas
  `Series.str.contains(pat, case=False, regex=False)` upper-cases both
  sides and tests literal substring containment, embedded by `containsCase`.
* Latitudes and longitudes are embedded as exact rationals `Rat` (the
  source stores floats; every coordinate surviving the load pipeline is a
  plain finite decimal from the geocode cache, and the claims under study
  concern ordering and equality, not rounding).
* A pandas boolean-mask filter over the dataframe is `List.filter` over the
  record list in store order.
-/

/-- Helper `startsWithList hay needle`: the chars `needle` are an initial segment of
`hay` (helper for the Python substring operator). -/
def startsWithList : List Char → List Char → Bool
  | _, [] => true
  | [], _ :: _ => false
  | h :: hs, n :: ns => h == n && startsWithList hs ns

/-- Helper `containsList hay needle`: `needle` occurs as a contiguous sublist of
`hay` (helper for the Python substring operator). -/
def containsList : List Char → List Char → Bool
  | [], needle => startsWithList [] needle
  | h :: t, needle => startsWithList (h :: t) needle || containsList t needle

/-- Python's `needle in hay` on strings: literal substring containment,
no pattern interpretation. -/
def pyIn (needle hay : String) : Bool :=
  containsList hay.data needle.data

/-- Python `str.lower()`, embedded character-wise over the string's data. -/
def lowerStr (s : String) : String :=
  ⟨s.data.map Char.toLower⟩

/-- Python `str.upper()`, embedded character-wise over the string's data. -/
def upperStr (s : String) : String :=
  ⟨s.data.map Char.toUpper⟩

/-- Drop leading and trailing whitespace from a character list. -/
def trimChars (l : List Char) : List Char :=
  ((l.dropWhile Char.isWhitespace).reverse.dropWhile Char.isWhitespace).reverse

/-- Python `str.strip()` with no argument: remove leading and trailing
whitespace. -/
def stripStr (s : String) : String :=
  ⟨trimChars s.data⟩

/-- Source `src/app.py` lines 22-35, `normalize_status`: lower-cases the raw status
text and classifies it by the first matching substring rule, falling back to
"Stakeholder". -/
def normalize_status (x : String) : String :=
  let x := lowerStr x
  if pyIn "keynote" x then "Keynote speaker"
  else if pyIn "general" x && pyIn "participant" x then "General Participant"
  else if pyIn "declined" x then "Declined"
  else if pyIn "organising" x then "Organising Committee"
  else if pyIn "session" x || pyIn "oral" x then "Session presentation"
  else if pyIn "panel" x then "Panel discussion"
  else if pyIn "sponsor" x then "Sponsor"
  else if stripStr x == "tbc" || stripStr x == "to be confirmed" then
    "Invited to attend Symposium"
  else "Stakeholder"

/-- Source `src/app.py` lines 37-47, `status_levels`: the fixed ordered status
enumeration. -/
def status_levels : List String :=
  ["Keynote speaker",
   "General Participant",
   "Declined",
   "Organising Committee",
   "Session presentation",
   "Panel discussion",
   "Sponsor",
   "Invited to attend Symposium",
   "Stakeholder"]

/-- Source `src/app.py` lines 89-99, `status_to_colour`: the fixed status → colour
palette, embedded as an association list (the source is a Python dict whose
lookups in the programme only ever use keys from `status_levels`). -/
def status_to_colour : List (String × String) :=
  [("Keynote speaker",             "#2ecc71"),
   ("General Participant",         "#ffffb3"),
   ("Declined",                    "#e74c3c"),
   ("Organising Committee",        "#3498db"),
   ("Session presentation",        "#f1c40f"),
   ("Panel discussion",            "#9b59b6"),
   ("Sponsor",                     "#d4ac0d"),
   ("Invited to attend Symposium", "#f39c12"),
   ("Stakeholder",                 "#808080")]

/-- One record of the Record Store (a row of `df` after the load pipeline of
`src/app.py` lines 18-76).  Fields the pipeline guarantees to be present
(`Country`, normalized `Status`, `Latitude`, `Longitude`) are plain values;
the remaining columns may be missing (`NaN`) and are `Option String`. -/
structure Record where
  name : Option String
  position : Option String
  affiliation : Option String
  department : Option String
  category : Option String
  subcategory : Option String
  country : String
  city : Option String
  rawStatus : String
  status : String
  latitude : Rat
  longitude : Rat
deriving DecidableEq, Repr

/-- pandas `astype(str)` on a cell: a missing value (`NaN`) stringifies to
the literal text "nan". -/
def strField : Option String → String
  | none => "nan"
  | some s => s

/-- pandas `col.astype(str).str.contains(term, case=False, na=False,
regex=False)` on one cell: upper-case both sides and test literal substring
containment (`src/app.py` lines 368-377 and 474-480). -/
def containsCase (hay term : String) : Bool :=
  pyIn (upperStr term) (upperStr hay)

/-- The six columns scanned by the free-text search, in source order
(`src/app.py` line 369 and line 474). -/
def searchFields (r : Record) : List (Option String) :=
  [r.name, r.affiliation, r.category, some r.country, r.city, r.position]

/-- The row-wise free-text search mask (`.any(axis=1)` over the six columns). -/
def searchHit (r : Record) (term : String) : Bool :=
  (searchFields r).any fun f => containsCase (strField f) term

/-- The transient filter state fed to the callbacks: the five categorical
selections (Python lists) and the free-text search string. -/
structure FilterState where
  statuses : List String
  cats : List String
  subcats : List String
  countries : List String
  affils : List String
  search : String
deriving DecidableEq, Repr

/-- pandas `col.isin(sel)` on one possibly-missing cell: a missing value is
in no selection list. -/
def isinOpt (v : Option String) (sel : List String) : Bool :=
  match v with
  | none => false
  | some s => sel.contains s

/-- Source `src/app.py` lines 355-378 (`update_map`): the per-record boolean mask.
Each categorical dimension contributes only when its selection list is
truthy (non-empty); the search term contributes only when the raw search
string is truthy, and is stripped before matching. -/
def rowMask (fs : FilterState) (r : Record) : Bool :=
  (if fs.statuses.isEmpty then true else fs.statuses.contains r.status) &&
  (if fs.cats.isEmpty then true else isinOpt r.category fs.cats) &&
  (if fs.subcats.isEmpty then true else isinOpt r.subcategory fs.subcats) &&
  (if fs.countries.isEmpty then true else fs.countries.contains r.country) &&
  (if fs.affils.isEmpty then true else isinOpt r.affiliation fs.affils) &&
  (if fs.search == "" then true else searchHit r (stripStr fs.search))

/-- Source `src/app.py` lines 461-481 (`update_visible_table`): the per-record
boolean mask of the table callback, coded in the source as a separate copy
of the same filtering logic. -/
def rowMaskTable (fs : FilterState) (r : Record) : Bool :=
  (if fs.statuses.isEmpty then true else fs.statuses.contains r.status) &&
  (if fs.cats.isEmpty then true else isinOpt r.category fs.cats) &&
  (if fs.subcats.isEmpty then true else isinOpt r.subcategory fs.subcats) &&
  (if fs.countries.isEmpty then true else fs.countries.contains r.country) &&
  (if fs.affils.isEmpty then true else isinOpt r.affiliation fs.affils) &&
  (if fs.search == "" then true else searchHit r (stripStr fs.search))

/-- The assignment `dff = df[m]` in `update_map` (`src/app.py` line 380): the filtered
record set of the map callback, in store order. -/
def update_map_filtered (store : List Record) (fs : FilterState) : List Record :=
  store.filter (rowMask fs)

/-- The assignment `vis = df[m]` in `update_visible_table` (`src/app.py` line 484): the
record set the table starts from, before the viewport-bounds restriction. -/
def update_table_filtered (store : List Record) (fs : FilterState) : List Record :=
  store.filter (rowMaskTable fs)

/-- The five categorical filter dimensions. -/
inductive Dim
  | status
  | category
  | subcategory
  | country
  | affiliation
deriving DecidableEq, Repr

/-- The selection list a filter state holds for a dimension. -/
def FilterState.dimSel (fs : FilterState) : Dim → List String
  | .status => fs.statuses
  | .category => fs.cats
  | .subcategory => fs.subcats
  | .country => fs.countries
  | .affiliation => fs.affils

/-- Replace the selection list of one dimension. -/
def FilterState.setDim (fs : FilterState) : Dim → List String → FilterState
  | .status, sel => { fs with statuses := sel }
  | .category, sel => { fs with cats := sel }
  | .subcategory, sel => { fs with subcats := sel }
  | .country, sel => { fs with countries := sel }
  | .affiliation, sel => { fs with affils := sel }

/-- The dataframe column a dimension's `isin` test reads, as a
possibly-missing cell (`Status` and `Country` are always present in the
store). -/
def Record.dimVal (r : Record) : Dim → Option String
  | .status => some r.status
  | .category => r.category
  | .subcategory => r.subcategory
  | .country => some r.country
  | .affiliation => r.affiliation

/-- The conjunct one categorical dimension contributes to the filter mask:
a no-op (`true`) when its selection list is empty, membership otherwise. -/
def dimPass (fs : FilterState) (d : Dim) (r : Record) : Bool :=
  if (fs.dimSel d).isEmpty then true else isinOpt (r.dimVal d) (fs.dimSel d)

/-- The conjunct the free-text search contributes to the filter mask. -/
def searchPass (fs : FilterState) (r : Record) : Bool :=
  if fs.search == "" then true else searchHit r (stripStr fs.search)

/-- The filter state with nothing selected and an empty search string: the
dashboard's default/initial view, and the state the Reset button restores. -/
def emptyFilterState : FilterState :=
  { statuses := [], cats := [], subcats := [], countries := [], affils := [],
    search := "" }

/-- The `groupby` key of a record: its exact coordinate pair
(`src/app.py` line 409). -/
def coordKey (r : Record) : Rat × Rat :=
  (r.latitude, r.longitude)

/-- Lexicographic order on coordinate pairs: the order in which pandas
`groupby(["Latitude","Longitude"])` (with its default `sort=True`) emits
the distinct group keys. -/
def keyLE : Rat × Rat → Rat × Rat → Prop :=
  fun a b => a.1 < b.1 ∨ (a.1 = b.1 ∧ a.2 ≤ b.2)

instance : DecidableRel keyLE := fun a b => by
  unfold keyLE
  infer_instance

/-- Distinct elements in first-encounter order. -/
def dedupFirst : List (Rat × Rat) → List (Rat × Rat)
  | [] => []
  | a :: t => a :: (dedupFirst t).filter (fun b => !(b == a))

/-- The distinct coordinate keys of the filtered set in the order the
`for ... in dff.groupby(["Latitude","Longitude"])` loop of `src/app.py`
line 409 visits them: pandas forms the distinct keys and, with the default
`sort=True`, yields them sorted lexicographically. -/
def markerKeys (dff : List Record) : List (Rat × Rat) :=
  List.insertionSort keyLE (dedupFirst (dff.map coordKey))

/-- The rows of one coordinate group, in store order (pandas keeps original
row order within each group). -/
def groupRows (dff : List Record) (k : Rat × Rat) : List Record :=
  dff.filter fun r => coordKey r == k

/-- Source `src/app.py` lines 382-385: when exactly one status pill is selected,
every marker colour is overridden to that status's colour. -/
def overrideColour (statuses : List String) : Option String :=
  if !statuses.isEmpty && statuses.length == 1 then
    status_to_colour.lookup (statuses.headD "")
  else none

/-- One map marker as built by the loop of `src/app.py` lines 408-442
(the display attributes the claims are about: centre, colour, radius,
member count). -/
structure Marker where
  center : Rat × Rat
  colour : Option String
  radius : Nat
  count : Nat
deriving DecidableEq, Repr

/-- The marker list of `update_map` (`src/app.py` lines 408-442): one
marker per distinct coordinate of the filtered set, coloured by the
single-status override when active and otherwise by the status of the
group's first member in store order. -/
def buildMarkers (dff : List Record) (statuses : List String) : List Marker :=
  (markerKeys dff).map fun k =>
    let group := groupRows dff k
    { center := k
      colour :=
        match overrideColour statuses with
        | some c => some c
        | none => group.head?.bind fun r0 => status_to_colour.lookup r0.status
      radius := 8 + 2 * min group.length 10
      count := group.length }

/-- Source `src/app.py` lines 387-399: the legend swatches.  Python's
`statuses or status_levels` falls back to the full enumeration exactly when
the selection list is empty; each shown status is paired with its palette
colour. -/
def legendSwatches (statuses : List String) : List (String × Option String) :=
  (if statuses.isEmpty then status_levels else statuses).map fun s =>
    (s, status_to_colour.lookup s)

/-- Viewport bounds as delivered by the map: `(southwest, northeast)`, each
a `(latitude, longitude)` pair. -/
abbrev Bounds : Type :=
  (Rat × Rat) × (Rat × Rat)

/-- Source `src/app.py` lines 485-490: restrict the filtered set to the viewport,
with pandas `between` being inclusive on both ends; absent bounds are a
no-op. -/
def boundsRestrict (bounds : Option Bounds) (vis : List Record) : List Record :=
  match bounds with
  | none => vis
  | some (sw, ne) =>
    vis.filter fun r =>
      (sw.1 ≤ r.latitude && r.latitude ≤ ne.1) &&
      (sw.2 ≤ r.longitude && r.longitude ≤ ne.2)

/-- Source `src/app.py` lines 459-494, `update_visible_table`: the record rows the
table displays (the source finally projects each row to the seven display
columns; the claims quantify over rows, so the projection is kept as the
identity on records here). -/
def update_visible_table (store : List Record) (fs : FilterState)
    (bounds : Option Bounds) : List Record :=
  boundsRestrict bounds (update_table_filtered store fs)

/-- One raw row of `stakeholders.csv` as read at `src/app.py` line 18:
every recognized column may be missing. -/
structure RawRow where
  name : Option String
  position : Option String
  affiliation : Option String
  department : Option String
  category : Option String
  subcategory : Option String
  country : Option String
  city : Option String
  status : Option String
deriving DecidableEq, Repr

/-- The geocode cache (`geocoded_cache.json`): a mapping from location
strings to coordinate pairs whose components may be null. -/
abbrev GeoCache : Type :=
  List (String × (Option Rat × Option Rat))

/-- The `Location` key of `src/app.py` lines 58-62: `"{city}, {country}"`
when the city cell is present and non-empty, else the country alone. -/
def rowLocation (city : Option String) (country : String) : String :=
  match city with
  | some c => if c != "" then c ++ ", " ++ country else country
  | none => country

/-- The per-row outcome of the load pipeline of `src/app.py` lines 18-76:
stringify the raw status and normalize it, strip the subcategory, drop the
row unless its country is present and non-empty, derive the location key,
look it up in the geocode cache, and drop the row unless both coordinates
resolve. -/
def buildRecord (cache : GeoCache) (row : RawRow) : Option Record :=
  row.country.bind fun c =>
    if c == "" then none
    else
      let raw := strField row.status
      let coords := ((cache.lookup (rowLocation row.city c)).getD (none, none))
      coords.1.bind fun la =>
        coords.2.bind fun lo =>
          some { name := row.name
                 position := row.position
                 affiliation := row.affiliation
                 department := row.department
                 category := row.category
                 subcategory := row.subcategory.map stripStr
                 country := c
                 city := row.city
                 rawStatus := raw
                 status := normalize_status raw
                 latitude := la
                 longitude := lo }

/-- The Record Store: the rows of the input table surviving the load
pipeline, in input order (`src/app.py` lines 18-76). -/
def buildStore (rows : List RawRow) (cache : GeoCache) : List Record :=
  rows.filterMap (buildRecord cache)

/-! ### Helper lemmas -/

theorem normalize_status_mem_levels (x : String) :
    normalize_status x ∈ status_levels := by
  simp only [normalize_status]
  split_ifs <;> simp [status_levels]

theorem startsWithList_iff (hay needle : List Char) :
    startsWithList hay needle = true ↔ ∃ post, hay = needle ++ post := by
  induction needle generalizing hay with
  | nil => simp [startsWithList]
  | cons n ns ih =>
    cases hay with
    | nil => simp [startsWithList]
    | cons h hs =>
      simp only [startsWithList, Bool.and_eq_true, beq_iff_eq, ih,
        List.cons_append, List.cons.injEq]
      constructor
      · rintro ⟨rfl, post, rfl⟩
        exact ⟨post, rfl, rfl⟩
      · rintro ⟨post, rfl, rfl⟩
        exact ⟨rfl, post, rfl⟩

theorem containsList_iff (hay needle : List Char) :
    containsList hay needle = true ↔
      ∃ pre post, hay = pre ++ needle ++ post := by
  induction hay with
  | nil =>
    simp only [containsList]
    constructor
    · intro h
      rcases (startsWithList_iff _ _).1 h with ⟨post, hp⟩
      exact ⟨[], post, by simpa using hp⟩
    · rintro ⟨pre, post, hp⟩
      obtain ⟨h1, h2⟩ := List.append_eq_nil.mp hp.symm
      obtain ⟨h3, h4⟩ := List.append_eq_nil.mp h1
      subst h4
      simp [startsWithList]
  | cons h t ih =>
    simp only [containsList, Bool.or_eq_true, startsWithList_iff, ih]
    constructor
    · rintro (⟨post, hp⟩ | ⟨pre, post, hp⟩)
      · exact ⟨[], post, by simpa using hp⟩
      · exact ⟨h :: pre, post, by simp [hp]⟩
    · rintro ⟨pre, post, hp⟩
      cases pre with
      | nil => exact Or.inl ⟨post, by simpa using hp⟩
      | cons p ps =>
        simp only [List.cons_append, List.cons.injEq] at hp
        exact Or.inr ⟨ps, post, hp.2⟩

theorem pyIn_iff (needle hay : String) :
    pyIn needle hay = true ↔
      ∃ pre post, hay.data = pre ++ needle.data ++ post := by
  exact containsList_iff hay.data needle.data

theorem rowMask_eq_dims (fs : FilterState) (r : Record) :
    rowMask fs r =
      (dimPass fs .status r && dimPass fs .category r &&
       dimPass fs .subcategory r && dimPass fs .country r &&
       dimPass fs .affiliation r && searchPass fs r) := by
  simp only [rowMask, dimPass, searchPass, FilterState.dimSel, Record.dimVal,
    isinOpt, Bool.and_assoc]

theorem rowMaskTable_eq_rowMask (fs : FilterState) (r : Record) :
    rowMaskTable fs r = rowMask fs r := rfl

theorem dimSel_setDim_same (fs : FilterState) (d : Dim) (sel : List String) :
    (fs.setDim d sel).dimSel d = sel := by
  cases d <;> rfl

theorem dimSel_setDim_ne (fs : FilterState) (d d' : Dim) (sel : List String)
    (h : d' ≠ d) : (fs.setDim d sel).dimSel d' = fs.dimSel d' := by
  cases d <;> cases d' <;> first | rfl | exact absurd rfl h

theorem search_setDim (fs : FilterState) (d : Dim) (sel : List String) :
    (fs.setDim d sel).search = fs.search := by
  cases d <;> rfl

theorem dimVal_setDim (fs : FilterState) (d : Dim) (sel : List String)
    (r : Record) (d' : Dim) :
    dimPass (fs.setDim d sel) d' r =
      if d' = d then
        (if sel.isEmpty then true else isinOpt (r.dimVal d') sel)
      else dimPass fs d' r := by
  by_cases h : d' = d
  · subst h
    simp [dimPass, dimSel_setDim_same]
  · simp [dimPass, dimSel_setDim_ne fs d d' sel h, h]

theorem rowMask_mono (fs₁ fs₂ : FilterState) (r : Record)
    (hdim : ∀ d, dimPass fs₁ d r = true → dimPass fs₂ d r = true)
    (hsearch : searchPass fs₁ r = true → searchPass fs₂ r = true) :
    rowMask fs₁ r = true → rowMask fs₂ r = true := by
  rw [rowMask_eq_dims, rowMask_eq_dims]
  simp only [Bool.and_eq_true]
  rintro ⟨⟨⟨⟨⟨h1, h2⟩, h3⟩, h4⟩, h5⟩, h6⟩
  exact ⟨⟨⟨⟨⟨hdim _ h1, hdim _ h2⟩, hdim _ h3⟩, hdim _ h4⟩, hdim _ h5⟩,
    hsearch h6⟩

/-! ### Claim C1 -/

/-- C1: for every record store and every filter state, the record set
underlying the map markers (computed by `update_map`, lines 355-380) equals
the record set the table view starts from before the viewport-bounds
restriction (computed by `update_visible_table`, lines 461-484): the two
independently coded filter computations denote the same function of the
store and the filter state. -/
theorem map_and_table_filters_agree (store : List Record) (fs : FilterState) :
    update_map_filtered store fs = update_table_filtered store fs := by
  unfold update_map_filtered update_table_filtered
  exact (List.filter_congr fun r _ => (rowMaskTable_eq_rowMask fs r).symm).symm

/-! ### Claim C5 -/

/-- C5: `normalize_status` is total onto the fixed enumeration — it always
returns one of the nine `status_levels`, with "Stakeholder" as the fallback
(determinism is immediate: it is a pure function) — and its case-insensitive
substring rules fire in fixed priority order: "Organising Committee /
Session Chair" is classified as "Organising Committee" by rule 4 even
though rule 5's "session" substring is also present. -/
theorem normalize_status_total_and_priority :
    (∀ x, normalize_status x ∈ status_levels) ∧
    normalize_status "Organising Committee / Session Chair" =
      "Organising Committee" ∧
    pyIn "session" (lowerStr "Organising Committee / Session Chair") = true ∧
    pyIn "organising" (lowerStr "Organising Committee / Session Chair") = true :=
  ⟨normalize_status_mem_levels, by decide, by decide, by decide⟩

/-! ### Claim C6 -/

/-- C6: filtering with the all-empty filter state returns the entire store
unchanged, in both filter computations, and each categorical dimension with
an empty selection list passes every record. -/
theorem empty_filter_state_is_identity :
    (∀ store : List Record, update_map_filtered store emptyFilterState = store) ∧
    (∀ store : List Record,
      update_visible_table store emptyFilterState none = store) ∧
    (∀ (fs : FilterState) (d : Dim) (r : Record),
      fs.dimSel d = [] → dimPass fs d r = true) := by
  refine ⟨?_, ?_, ?_⟩
  · intro store
    unfold update_map_filtered
    rw [List.filter_eq_self]
    intro r _
    simp [rowMask, emptyFilterState]
  · intro store
    unfold update_visible_table boundsRestrict update_table_filtered
    rw [List.filter_eq_self]
    intro r _
    simp [rowMaskTable, emptyFilterState]
  · intro fs d r h
    simp [dimPass, h]

/-- A concrete record used to witness C6. -/
def rec6 : Record :=
  { name := some "Ada", position := some "Professor",
    affiliation := some "CSIRO", department := none,
    category := some "Research", subcategory := some "Food",
    country := "Australia", city := some "Brisbane",
    rawStatus := "Keynote", status := "Keynote speaker",
    latitude := -27, longitude := 153 }

/-- A filter state whose status dimension is empty but whose other
dimensions are active, used to witness C6. -/
def fs6 : FilterState :=
  { statuses := [], cats := ["Research"], subcats := [],
    countries := ["Australia"], affils := [], search := "" }

theorem empty_filter_state_is_identity_witness :
    update_map_filtered [rec6] emptyFilterState = [rec6] ∧
    update_visible_table [rec6] emptyFilterState none = [rec6] ∧
    dimPass fs6 Dim.status rec6 = true :=
  ⟨empty_filter_state_is_identity.1 [rec6],
   empty_filter_state_is_identity.2.1 [rec6],
   empty_filter_state_is_identity.2.2 fs6 Dim.status rec6 rfl⟩

/-! ### Claim C3 -/

/-- A record all of whose search columns except the always-present country
are missing, used for C3. -/
def rec3 : Record :=
  { name := none, position := none, affiliation := none, department := none,
    category := none, subcategory := none, country := "France", city := none,
    rawStatus := "nan", status := "Stakeholder",
    latitude := 48, longitude := 2 }

/-- The filter state searching for "nan", used for C3. -/
def fs3 : FilterState :=
  { emptyFilterState with search := "nan" }

/-- C3 counterexample: the claim says a null field never matches, so `rec3`
- whose only non-null candidate field is its country "France", which does
not contain "nan" - should match no search string.  The code stringifies
missing cells to the literal "nan" before matching, so the search "nan"
matches `rec3` and the filtered set keeps it. -/
theorem null_fields_match_nan_search :
    update_map_filtered [rec3] fs3 = [rec3] ∧
    searchFields rec3 = [none, none, none, some "France", none, none] ∧
    containsCase "France" "nan" = false := by
  refine ⟨?_, by decide, by decide⟩
  decide

/-- C3 amended: for every record and every non-empty search string, the
record passes the free-text filter iff at least one of its name,
affiliation, category, country, city, position cells - with missing cells
stringified to the literal "nan" - contains the trimmed search string as a
case-insensitive literal substring (cases folded on both sides).  In
particular a missing cell matches exactly the search strings contained in
"nan", rather than never matching. -/
theorem search_matches_iff_some_field_contains (r : Record) (q : String)
    (hq : q ≠ "") :
    rowMask { emptyFilterState with search := q } r = true ↔
      ∃ f ∈ searchFields r, ∃ pre post,
        (upperStr (strField f)).data =
          pre ++ (upperStr (stripStr q)).data ++ post := by
  have hq' : (q == "") = false := by
    simpa using hq
  simp [rowMask, emptyFilterState, hq', searchHit, List.any_eq_true,
    containsCase, pyIn_iff]

theorem search_matches_iff_some_field_contains_witness :
    rowMask { emptyFilterState with search := "FRA" } rec3 = true ↔
      ∃ f ∈ searchFields rec3, ∃ pre post,
        (upperStr (strField f)).data =
          pre ++ (upperStr (stripStr "FRA")).data ++ post :=
  search_matches_iff_some_field_contains rec3 "FRA" (by decide)

/-! ### Claim C4 -/

/-- If a possibly-missing cell is in a selection list, it is in the
selection list extended by one more value. -/
theorem isinOpt_cons (val : Option String) (v : String) (sel : List String)
    (h : isinOpt val sel = true) : isinOpt val (v :: sel) = true := by
  cases val with
  | none => simp [isinOpt] at h
  | some s =>
    simp only [isinOpt, List.contains_cons, Bool.or_eq_true]
    exact Or.inr (by simpa [isinOpt] using h)

/-- A one-record store whose record is a sponsor, used for C4. -/
def rec4 : Record :=
  { name := some "Mei", position := none, affiliation := some "ExtruCo",
    department := none, category := some "Industry", subcategory := none,
    country := "Japan", city := some "Osaka",
    rawStatus := "Sponsor", status := "Sponsor",
    latitude := 34, longitude := 135 }

/-- A filter state already selecting one status, used for C4. -/
def fs4 : FilterState :=
  { emptyFilterState with statuses := ["Declined"] }

/-- C4 counterexample: with "Declined" already selected, the store's single
"Sponsor" record is filtered out; adding the value "Sponsor" to the status
selection grows the result set from 0 to 1 records, so adding a value to a
categorical dimension can strictly increase the result size. -/
theorem adding_status_value_can_grow_result :
    ¬ ((update_map_filtered [rec4]
          (fs4.setDim Dim.status ("Sponsor" :: fs4.dimSel Dim.status))).length ≤
        (update_map_filtered [rec4] fs4).length) := by
  decide

/-- C4 amended: selection lists within one dimension are disjunctive, so
monotonicity splits by whether the dimension was active: adding one value
to a dimension whose selection list is empty (a no-op dimension becoming a
restriction) never increases the filtered result size, while adding one
value to an already non-empty selection list never decreases it. -/
theorem adding_dimension_value_monotonicity (store : List Record)
    (fs : FilterState) (d : Dim) (v : String) :
    (fs.dimSel d = [] →
      (update_map_filtered store (fs.setDim d (v :: fs.dimSel d))).length ≤
        (update_map_filtered store fs).length) ∧
    (fs.dimSel d ≠ [] →
      (update_map_filtered store fs).length ≤
        (update_map_filtered store (fs.setDim d (v :: fs.dimSel d))).length) := by
  constructor
  · intro hempty
    apply List.Sublist.length_le
    apply List.monotone_filter_right
    intro r
    apply rowMask_mono
    · intro d'
      rw [dimVal_setDim]
      by_cases hd : d' = d
      · subst hd
        intro _
        simp [dimPass, hempty]
      · rw [if_neg hd]
        exact id
    · intro h
      simpa [searchPass, search_setDim] using h
  · intro hne
    apply List.Sublist.length_le
    apply List.monotone_filter_right
    intro r
    apply rowMask_mono
    · intro d'
      rw [dimVal_setDim]
      by_cases hd : d' = d
      · subst hd
        intro h
        rw [if_pos rfl]
        simp only [List.isEmpty_cons, if_false, Bool.false_eq_true]
        apply isinOpt_cons
        simp only [dimPass, List.isEmpty_iff, if_neg hne] at h
        exact h
      · rw [if_neg hd]
        exact id
    · intro h
      simpa [searchPass, search_setDim] using h

theorem adding_dimension_value_monotonicity_witness :
    ((update_map_filtered [rec4]
        (emptyFilterState.setDim Dim.status
          ("Sponsor" :: emptyFilterState.dimSel Dim.status))).length ≤
      (update_map_filtered [rec4] emptyFilterState).length) ∧
    ((update_map_filtered [rec4] fs4).length ≤
      (update_map_filtered [rec4]
        (fs4.setDim Dim.status ("Sponsor" :: fs4.dimSel Dim.status))).length) :=
  ⟨(adding_dimension_value_monotonicity [rec4] emptyFilterState
      Dim.status "Sponsor").1 rfl,
   (adding_dimension_value_monotonicity [rec4] fs4
      Dim.status "Sponsor").2 (by decide)⟩

/-! ### Claim C2 -/

instance : IsTrans (Rat × Rat) keyLE where
  trans := by
    rintro a b c (h1 | ⟨e1, le1⟩) (h2 | ⟨e2, le2⟩)
    · exact Or.inl (h1.trans h2)
    · exact Or.inl (lt_of_lt_of_eq h1 e2)
    · exact Or.inl (lt_of_eq_of_lt e1 h2)
    · exact Or.inr ⟨e1.trans e2, le1.trans le2⟩

instance : IsTotal (Rat × Rat) keyLE where
  total := by
    intro a b
    rcases lt_trichotomy a.1 b.1 with h | h | h
    · exact Or.inl (Or.inl h)
    · rcases le_total a.2 b.2 with h2 | h2
      · exact Or.inl (Or.inr ⟨h, h2⟩)
      · exact Or.inr (Or.inr ⟨h.symm, h2⟩)
    · exact Or.inr (Or.inl h)

theorem mem_dedupFirst (x : Rat × Rat) (l : List (Rat × Rat)) :
    x ∈ dedupFirst l ↔ x ∈ l := by
  induction l with
  | nil => simp [dedupFirst]
  | cons a t ih =>
    simp only [dedupFirst, List.mem_cons, List.mem_filter, ih,
      Bool.not_eq_eq_eq_not, Bool.not_true, beq_eq_false_iff_ne, ne_eq]
    constructor
    · rintro (rfl | ⟨hx, _⟩)
      · exact Or.inl rfl
      · exact Or.inr hx
    · rintro (rfl | hx)
      · exact Or.inl rfl
      · by_cases hxa : x = a
        · exact Or.inl hxa
        · exact Or.inr ⟨hx, hxa⟩

theorem dedupFirst_nodup (l : List (Rat × Rat)) : (dedupFirst l).Nodup := by
  induction l with
  | nil => simp [dedupFirst]
  | cons a t ih =>
    rw [dedupFirst, List.nodup_cons]
    constructor
    · simp [List.mem_filter]
    · exact List.Nodup.filter _ ih

/-- Two records at distinct coordinates, stored with the lexicographically
larger coordinate first, used for C2. -/
def rec2a : Record :=
  { name := some "Greta", position := none, affiliation := none,
    department := none, category := none, subcategory := none,
    country := "Germany", city := none,
    rawStatus := "Stakeholder", status := "Stakeholder",
    latitude := 50, longitude := 0 }

def rec2b : Record :=
  { name := some "Tao", position := none, affiliation := none,
    department := none, category := none, subcategory := none,
    country := "Togo", city := none,
    rawStatus := "Stakeholder", status := "Stakeholder",
    latitude := 10, longitude := 5 }

/-- C2 counterexample: scanning the filtered set in store order first
encounters the coordinate (50, 0) and then (10, 5), but the aggregator
(pandas `groupby` with its default `sort=True`) emits the group keys in
ascending coordinate order (10, 5), (50, 0) - not in first-encounter
order. -/
theorem marker_groups_not_in_first_encounter_order :
    (update_map_filtered [rec2a, rec2b] emptyFilterState).map coordKey =
      [((50 : Rat), (0 : Rat)), ((10 : Rat), (5 : Rat))] ∧
    markerKeys (update_map_filtered [rec2a, rec2b] emptyFilterState) =
      [((10 : Rat), (5 : Rat)), ((50 : Rat), (0 : Rat))] := by
  constructor
  · decide
  · decide

/-- C2 amended: for every filtered record set, the aggregator emits one
MarkerGroup per distinct (latitude, longitude) pair of the filtered set,
ordered by ascending lexicographic comparison of the coordinate pair
(pandas `groupby` sorts its group keys by default) - not in the order the
coordinates are first encountered in store order. -/
theorem marker_groups_sorted_by_coordinate (store : List Record)
    (fs : FilterState) :
    (markerKeys (update_map_filtered store fs)).Pairwise keyLE ∧
    (markerKeys (update_map_filtered store fs)).Nodup ∧
    (∀ k, k ∈ markerKeys (update_map_filtered store fs) ↔
      k ∈ (update_map_filtered store fs).map coordKey) ∧
    (buildMarkers (update_map_filtered store fs) fs.statuses).map
        Marker.center =
      markerKeys (update_map_filtered store fs) := by
  refine ⟨List.sorted_insertionSort keyLE _, ?_, ?_, ?_⟩
  · exact ((List.perm_insertionSort keyLE _).symm).nodup
      (dedupFirst_nodup _)
  · intro k
    rw [markerKeys, (List.perm_insertionSort keyLE _).mem_iff,
      mem_dedupFirst]
  · simp only [buildMarkers, List.map_map]
    exact List.map_id _

/-! ### Claim C7 -/

/-- Every status of the enumeration has a palette entry. -/
theorem lookup_colour_isSome (s : String) (hs : s ∈ status_levels) :
    ∃ c, status_to_colour.lookup s = some c := by
  simp only [status_levels, List.mem_cons, List.mem_singleton] at hs
  rcases hs with rfl | rfl | rfl | rfl | rfl | rfl | rfl | rfl | rfl | h
  · exact ⟨"#2ecc71", by decide⟩
  · exact ⟨"#ffffb3", by decide⟩
  · exact ⟨"#e74c3c", by decide⟩
  · exact ⟨"#3498db", by decide⟩
  · exact ⟨"#f1c40f", by decide⟩
  · exact ⟨"#9b59b6", by decide⟩
  · exact ⟨"#d4ac0d", by decide⟩
  · exact ⟨"#f39c12", by decide⟩
  · exact ⟨"#808080", by decide⟩
  · cases h

/-- C7: if the status filter selects exactly one status (of the
enumeration), every emitted marker is coloured with that status's palette
colour, regardless of its members' statuses; with any other number of
selected statuses, each marker is coloured with the palette colour of the
status of its group's first member in store order. -/
theorem marker_colour_override_rule (store : List Record) (fs : FilterState)
    (m : Marker)
    (hm : m ∈ buildMarkers (update_map_filtered store fs) fs.statuses) :
    (∀ s, fs.statuses = [s] → s ∈ status_levels →
      m.colour = status_to_colour.lookup s) ∧
    (fs.statuses.length ≠ 1 →
      m.colour = ((update_map_filtered store fs).find? fun r =>
          coordKey r == m.center).bind fun r0 =>
        status_to_colour.lookup r0.status) := by
  obtain ⟨k, hk, rfl⟩ := List.mem_map.1 hm
  constructor
  · intro s hs hsl
    obtain ⟨c, hc⟩ := lookup_colour_isSome s hsl
    simp [hs, overrideColour, hc]
  · intro hlen
    have hover : overrideColour fs.statuses = none := by
      have : (fs.statuses.length == 1) = false := by
        simpa using hlen
      simp [overrideColour, this]
    simp [hover, groupRows, List.filter_head?]

/-- A sponsor record used to witness C7. -/
def rec7 : Record :=
  { name := some "Iris", position := none, affiliation := some "MillCo",
    department := none, category := some "Industry", subcategory := none,
    country := "Chile", city := none,
    rawStatus := "Sponsor", status := "Sponsor",
    latitude := 1, longitude := 2 }

/-- The filter state selecting exactly the Sponsor status, for the C7
witness. -/
def fs7 : FilterState :=
  { emptyFilterState with statuses := ["Sponsor"] }

/-- The single marker `update_map` builds from `[rec7]` under `fs7`. -/
def m7 : Marker :=
  { center := (1, 2), colour := some "#d4ac0d", radius := 10, count := 1 }

theorem marker_colour_override_rule_witness :
    m7.colour = status_to_colour.lookup "Sponsor" :=
  (marker_colour_override_rule [rec7] fs7 m7 (by decide)).1
    "Sponsor" rfl (by decide)

/-! ### Claim C8 -/

/-- C8: the legend shows one swatch per status of the selected status set
when that set is non-empty (no status repeated, each paired with its fixed
colour), and otherwise one swatch per status of the full enumeration, in
enumeration order, each paired with its fixed colour. -/
theorem legend_swatches_selected_or_all (statuses : List String)
    (hnd : statuses.Nodup) :
    (statuses ≠ [] →
      (legendSwatches statuses).map Prod.fst = statuses ∧
      ((legendSwatches statuses).map Prod.fst).Nodup ∧
      ∀ p ∈ legendSwatches statuses,
        p.2 = status_to_colour.lookup p.1) ∧
    (statuses = [] →
      legendSwatches statuses =
        status_levels.map fun s => (s, status_to_colour.lookup s)) := by
  constructor
  · intro hne
    have hemp : statuses.isEmpty = false := by
      simpa [List.isEmpty_iff] using hne
    have hfst : (legendSwatches statuses).map Prod.fst = statuses := by
      simp only [legendSwatches, hemp, Bool.false_eq_true, if_false,
        List.map_map]
      exact List.map_id _
    refine ⟨hfst, ?_, ?_⟩
    · rw [hfst]
      exact hnd
    · intro p hp
      simp only [legendSwatches, hemp, Bool.false_eq_true, if_false,
        List.mem_map] at hp
      obtain ⟨s, _, rfl⟩ := hp
      rfl
  · intro he
    subst he
    simp [legendSwatches]

theorem legend_swatches_selected_or_all_witness :
    (legendSwatches ["Sponsor", "Keynote speaker"]).map Prod.fst =
      ["Sponsor", "Keynote speaker"] ∧
    legendSwatches [] =
      status_levels.map fun s => (s, status_to_colour.lookup s) :=
  ⟨((legend_swatches_selected_or_all ["Sponsor", "Keynote speaker"]
      (by decide)).1 (by decide)).1,
   (legend_swatches_selected_or_all [] List.nodup_nil).2 rfl⟩

/-! ### Claim C9 -/

/-- C9: every record surviving the load pipeline has its status produced by
the normalizer - hence a member of the fixed enumeration - and a non-empty
country.  (That latitude, longitude and country are present at all is
carried by the `Record` type itself: `buildRecord` only constructs a record
after the country and both cached coordinates resolve, dropping the row
otherwise.) -/
theorem store_records_normalized (rows : List RawRow) (cache : GeoCache)
    (r : Record) (hr : r ∈ buildStore rows cache) :
    r.status ∈ status_levels ∧
    r.status = normalize_status r.rawStatus ∧
    r.country ≠ "" := by
  obtain ⟨row, _, hbuild⟩ := List.mem_filterMap.1 hr
  simp only [buildRecord, Option.bind_eq_some] at hbuild
  obtain ⟨c, hc, hbuild⟩ := hbuild
  split_ifs at hbuild with hce
  simp only [Option.bind_eq_some, Option.some_inj] at hbuild
  obtain ⟨la, hla, lo, hlo, hbuild⟩ := hbuild
  subst hbuild
  exact ⟨normalize_status_mem_levels _, rfl, by simpa using hce⟩

/-- A raw input row and a one-entry geocode cache used to witness C9. -/
def row9 : RawRow :=
  { name := some "Ada", position := none, affiliation := some "CSIRO",
    department := none, category := some "Research",
    subcategory := some " Food ", country := some "Australia",
    city := some "Brisbane", status := some "Keynote speaker" }

def cache9 : GeoCache :=
  [("Brisbane, Australia", (some (-27), some 153))]

/-- The record the pipeline builds from `row9` under `cache9`. -/
def rec9 : Record :=
  { name := some "Ada", position := none, affiliation := some "CSIRO",
    department := none, category := some "Research",
    subcategory := some "Food", country := "Australia",
    city := some "Brisbane", rawStatus := "Keynote speaker",
    status := "Keynote speaker", latitude := -27, longitude := 153 }

theorem store_records_normalized_witness :
    rec9.status ∈ status_levels ∧
    rec9.status = normalize_status rec9.rawStatus ∧
    rec9.country ≠ "" :=
  store_records_normalized [row9] cache9 rec9 (by decide)

/-! ### Claim C10 -/

/-- C10: whenever the viewport bounds are inverted - the southwest corner's
latitude exceeds the northeast corner's latitude, or the southwest corner's
longitude exceeds the northeast corner's longitude - the inclusive
between-checks are unsatisfiable, so the table view returns no rows at all,
whatever the store and filter state. -/
theorem inverted_bounds_empty_table (store : List Record) (fs : FilterState)
    (sw ne : Rat × Rat) (h : ne.1 < sw.1 ∨ ne.2 < sw.2) :
    update_visible_table store fs (some (sw, ne)) = [] := by
  unfold update_visible_table boundsRestrict
  rw [List.filter_eq_nil_iff]
  intro r _ hcontra
  simp only [Bool.and_eq_true, decide_eq_true_eq] at hcontra
  rcases h with h | h
  · exact absurd (le_trans hcontra.1.1 hcontra.1.2) (not_le.mpr h)
  · exact absurd (le_trans hcontra.2.1 hcontra.2.2) (not_le.mpr h)

/-- A record well inside any ordinary viewport, used to witness C10. -/
def rec10 : Record :=
  { name := some "Niko", position := none, affiliation := none,
    department := none, category := none, subcategory := none,
    country := "Kenya", city := none,
    rawStatus := "Stakeholder", status := "Stakeholder",
    latitude := 5, longitude := 5 }

theorem inverted_bounds_empty_table_witness :
    update_visible_table [rec10] emptyFilterState
      (some ((10, 0), (0, 0))) = [] :=
  inverted_bounds_empty_table [rec10] emptyFilterState (10, 0) (0, 0)
    (Or.inl (by decide))
